import Mathlib

/-!
Verification development for the Ranger ingestion pipeline.

The definitions below are a shallow embedding of the code that backs the
confidence workflow, the duplicate-candidate search, the block geocoder
(src/ingest/schema.sql), the HITL review-queue route
(app/api/admin/review-queue/route.ts), and the RSS-ingest / weekly-rollup
scripts (data/scripts/ingest-rss-supabase.js, weekly-rollup-supabase.js).

Modelling conventions:
* SQL FLOAT / JS number arithmetic is embedded as exact rational arithmetic
  over `ℚ`; timestamps are epoch seconds (`Int`), identifiers are `Nat`.
* Nullable SQL columns become `Option`; SQL three-valued comparisons with
  NULL evaluate to false, which is what the WHERE clauses below rely on.
* `ST_Distance` on geography is an external function of two points; the
  embedding is parametrised over an arbitrary distance function `dist`.
  `ST_DWithin a b d` is equivalent to `dist a b ≤ d`.
* A SQL `ORDER BY` with a single key determines the relative order of
  equal-key rows only up to the scan order; the embedding uses a stable
  insertion sort over the table order, which refines that behaviour.
-/

namespace Ranger

/-- Row of table `sources` (schema.sql), restricted to the columns that the
verified functions read. -/
structure Source where
  id : Nat
  source_type : String
deriving DecidableEq

/-- Row of table `incident_reports` (schema.sql), restricted to the columns
that the verified functions read or write. -/
structure Report where
  id : Nat
  incident_id : Option Nat
  source_id : Option Nat
  extraction_confidence : Option ℚ
  dedup_status : String
deriving DecidableEq

/-- Row of table `incidents` (schema.sql), restricted to the columns that the
verified functions read or write.  `reviewed_at` keeps the write timestamp. -/
structure Incident where
  id : Nat
  review_status : String
  confidence_score : ℚ
  report_count : Int
  source_types : List String
  reviewed_at : Option Nat
deriving DecidableEq

/-- The datastore state: the three tables involved in the confidence
workflow. -/
structure Store where
  sources : List Source
  incidents : List Incident
  reports : List Report
deriving DecidableEq

/-- Lookup of an incident row by primary key (`WHERE id = uuid`). -/
def getIncident (st : Store) (uuid : Nat) : Option Incident :=
  st.incidents.find? (fun i => i.id == uuid)

/-- The reports currently linked to an incident
(`WHERE r.incident_id = incident_uuid`). -/
def linkedReports (st : Store) (uuid : Nat) : List Report :=
  st.reports.filter (fun r => r.incident_id == some uuid)

/-- The source row joined to a report (`JOIN sources s ON r.source_id = s.id`;
`sources.id` is a primary key, so at most one row matches). -/
def joinSource (st : Store) (r : Report) : Option Source :=
  match r.source_id with
  | none => none
  | some sid => st.sources.find? (fun s => s.id == sid)

/-- The joined rows `incident_reports r JOIN sources s ON r.source_id = s.id
WHERE r.incident_id = incident_uuid` over which the aggregates of
`recalculate_incident_confidence` range (schema.sql lines 276-283). -/
def linkedJoined (st : Store) (uuid : Nat) : List (Report × Source) :=
  (linkedReports st uuid).filterMap (fun r => (joinSource st r).map (fun s => (r, s)))

/-- SQL `AVG`: NULL on an empty input set, otherwise the mean.  The inputs
are the non-NULL values of the aggregated column. -/
def sqlAvg (vals : List ℚ) : Option ℚ :=
  if vals.isEmpty then none else some (vals.sum / vals.length)

/-- `AVG(extraction_confidence)` over the joined rows (NULL confidences are
ignored by SQL `AVG`). -/
def avgExtractionConfidence (st : Store) (uuid : Nat) : Option ℚ :=
  sqlAvg ((linkedJoined st uuid).filterMap (fun p => p.1.extraction_confidence))

/-- `COUNT(*)` over the joined rows. -/
def numReports (st : Store) (uuid : Nat) : Int :=
  ((linkedJoined st uuid).length : Int)

/-- `COUNT(DISTINCT s.source_type)` over the joined rows. -/
def numSourceTypes (st : Store) (uuid : Nat) : Int :=
  (((linkedJoined st uuid).map (fun p => p.2.source_type)).dedup.length : Int)

/-- The confidence formula of `recalculate_incident_confidence`
(schema.sql lines 289-293):
`LEAST(0.99, COALESCE(avg, 0.5) + LEAST(n-1,3)*0.05 + LEAST(k-1,2)*0.1)`. -/
def newConfidence (avgC : Option ℚ) (nReports nSourceTypes : Int) : ℚ :=
  min (99/100) (avgC.getD (1/2)
    + ((min (nReports - 1) 3 : Int) : ℚ) * (5/100)
    + ((min (nSourceTypes - 1) 2 : Int) : ℚ) * (1/10))

/-- The review-status ladder of `recalculate_incident_confidence`
(schema.sql lines 296-302). -/
def statusForConfidence (c : ℚ) : String :=
  if 9/10 ≤ c then "auto_published"
  else if 6/10 ≤ c then "unverified"
  else "needs_review"

/-- The row update of the final `UPDATE incidents ... WHERE id = incident_uuid`
of `recalculate_incident_confidence` (schema.sql lines 305-313): on the
matching row, write the new confidence and report count, and keep a review
status of `approved` or `rejected` unchanged, otherwise take the proposed
status. -/
def applyRecalc (conf : ℚ) (nReports : Int) (proposed : String) (uuid : Nat)
    (i : Incident) : Incident :=
  if i.id == uuid then
    { i with
      confidence_score := conf
      report_count := nReports
      review_status :=
        if i.review_status == "approved" || i.review_status == "rejected" then
          i.review_status
        else proposed }
  else i

/-- Embedding of `recalculate_incident_confidence(incident_uuid)`
(schema.sql lines 266-315): recompute the aggregates over the linked
reports, then update the incident row. -/
def recalculate_incident_confidence (st : Store) (uuid : Nat) : Store :=
  let conf := newConfidence (avgExtractionConfidence st uuid)
    (numReports st uuid) (numSourceTypes st uuid)
  let upd := applyRecalc conf (numReports st uuid) (statusForConfidence conf) uuid
  { st with incidents := st.incidents.map upd }

/-- The incident update of the `POST` handler (route.ts lines 68-75):
set the review status and `reviewed_at` on the matching row. -/
def applyReviewUpdate (newStatus : String) (now : Nat) (incident_id : Nat)
    (i : Incident) : Incident :=
  if i.id == incident_id then
    { i with review_status := newStatus, reviewed_at := some now }
  else i

/-- The cascade update of the reject branch (route.ts lines 82-87):
`update incident_reports set dedup_status = rejected where incident_id = ...`. -/
def applyRejectCascade (incident_id : Nat) (r : Report) : Report :=
  if r.incident_id == some incident_id then { r with dedup_status := "rejected" } else r

/-- Embedding of the `POST` handler of app/api/admin/review-queue/route.ts
(lines 55-94): validate the action, set the incident's review status and
`reviewed_at`, and on reject also set `dedup_status = rejected` on every
report linked to the incident.  An invalid action returns 400 and leaves
the store unchanged. -/
def postReviewQueue (st : Store) (incident_id : Nat) (action : String) (now : Nat) : Store :=
  if action ≠ "approve" ∧ action ≠ "reject" then st
  else
    let newStatus := if action == "approve" then "approved" else "rejected"
    let incidents2 := st.incidents.map (applyReviewUpdate newStatus now incident_id)
    let reports2 :=
      if action == "reject" then st.reports.map (applyRejectCascade incident_id)
      else st.reports
    { st with incidents := incidents2, reports := reports2 }

/-! ### Duplicate-candidate search (`find_potential_duplicates`) -/

/-- A geographic point (WGS84 coordinates as exact rationals). -/
structure GeoPoint where
  x : ℚ
  y : ℚ
deriving DecidableEq

/-- Row of table `incidents` as read by `find_potential_duplicates`. -/
structure IncidentRow where
  id : Nat
  incident_type : Option String
  location : Option GeoPoint
  occurred_at : Option Int
deriving DecidableEq

/-- One row of the result set of `find_potential_duplicates`
(schema.sql lines 199-204). -/
structure DupCandidate where
  incident_id : Nat
  distance_meters : ℚ
  time_diff_minutes : ℚ
  match_score : ℚ
deriving DecidableEq

/-- SQL equality `i.incident_type = report_type` under three-valued logic:
true only when both sides are non-NULL and equal. -/
def typeEqSql : Option String → Option String → Bool
  | some a, some b => a == b
  | _, _ => false

/-- The single `ORDER BY match_score DESC` key of
`find_potential_duplicates`. -/
def scoreDesc (a b : DupCandidate) : Prop :=
  b.match_score ≤ a.match_score

instance : DecidableRel scoreDesc :=
  fun a b => inferInstanceAs (Decidable (b.match_score ≤ a.match_score))

instance : IsTotal DupCandidate scoreDesc :=
  ⟨fun a b => le_total b.match_score a.match_score⟩

instance : IsTrans DupCandidate scoreDesc :=
  ⟨fun _ _ _ h1 h2 => le_trans h2 h1⟩

/-- Embedding of `find_potential_duplicates(report_location, report_time,
report_type, distance_meters, time_window_hours)` (schema.sql lines
192-221).  The WHERE clause keeps incidents within `distance_meters` of the
report whose `occurred_at` lies in the ± `time_window_hours` window; each
kept row carries the weighted match score; the result is ordered by
`match_score DESC` (stable over the table order in this embedding). -/
def find_potential_duplicates (dist : GeoPoint → GeoPoint → ℚ)
    (incidents : List IncidentRow) (report_location : GeoPoint)
    (report_time : Int) (report_type : Option String)
    (distance_meters : Int) (time_window_hours : Int) : List DupCandidate :=
  let rows : List DupCandidate := incidents.filterMap (fun i =>
    match i.location, i.occurred_at with
    | some loc, some t =>
      if dist loc report_location ≤ (distance_meters : ℚ)
          ∧ report_time - time_window_hours * 3600 ≤ t
          ∧ t ≤ report_time + time_window_hours * 3600 then
        some { incident_id := i.id
               distance_meters := dist loc report_location
               time_diff_minutes := ((report_time - t : Int) : ℚ) / 60
               match_score :=
                 (1 - dist loc report_location / (distance_meters : ℚ)) * (5/10)
                 + (1 - |((report_time - t : Int) : ℚ)| / ((time_window_hours : ℚ) * 3600)) * (3/10)
                 + (if typeEqSql i.incident_type report_type then (2/10) else 0) }
      else none
    | _, _ => none)
  List.insertionSort scoreDesc rows

/-! ### Block geocoder (`geocode_block_address`) -/

/-- Whitespace class of the POSIX regexes used in `geocode_block_address`. -/
def isSpaceCh (c : Char) : Bool :=
  c == ' ' || c == '\t' || c == '\n' || c == '\r' || c == '\x0b' || c == '\x0c'

/-- Case-insensitive check that `l` begins with the (lowercase) pattern
`pat`. -/
def startsWithCI : List Char → List Char → Bool
  | [], _ => true
  | _ :: _, [] => false
  | p :: ps, c :: cs => (c.toLower == p) && startsWithCI ps cs

/-- Case-sensitive check that `l` begins with `pat`. -/
def startsWithCS : List Char → List Char → Bool
  | [], _ => true
  | _ :: _, [] => false
  | p :: ps, c :: cs => (p == c) && startsWithCS ps cs

/-- Substring containment, the semantics of `LIKE concat(percent, needle,
percent)` for a needle without wildcard characters. -/
def hasSub (needle : List Char) : List Char → Bool
  | [] => needle.isEmpty
  | c :: cs => startsWithCS needle (c :: cs) || hasSub needle cs

def dropSpaces (l : List Char) : List Char := l.dropWhile isSpaceCh

def blockWord : List Char := ['b', 'l', 'o', 'c', 'k']

def ofWord : List Char := ['o', 'f']

/-- Numeric value of a digit string (the `::INTEGER` cast of the capture). -/
def digitsToNat (l : List Char) : Nat :=
  l.foldl (fun acc c => acc * 10 + (c.toNat - 48)) 0

/-- Leftmost match of the case-insensitive regex `(\d+)\s*block` in
`geocode_block_address` (schema.sql line 335): the captured digit run, if
any position starts a digit run followed by optional whitespace and the
word `block`. -/
def findBlockNum : List Char → Option Nat
  | [] => none
  | c :: cs =>
    if c.isDigit && startsWithCI blockWord (dropSpaces ((c :: cs).dropWhile Char.isDigit)) then
      some (digitsToNat ((c :: cs).takeWhile Char.isDigit))
    else findBlockNum cs

/-- The anchored replace `regexp_replace(a, pat1, empty, i)` with
`pat1 = caret digits spaces block spaces (of spaces)?`
(schema.sql lines 336-337): strips the block prefix when present,
otherwise leaves the string unchanged. -/
def stripPrefixBlock (l : List Char) : List Char :=
  if (l.takeWhile Char.isDigit).isEmpty then l
  else
    let afterDigits := dropSpaces (l.dropWhile Char.isDigit)
    if startsWithCI blockWord afterDigits then
      let afterBlock := dropSpaces (afterDigits.drop blockWord.length)
      if startsWithCI ofWord afterBlock then dropSpaces (afterBlock.drop ofWord.length)
      else afterBlock
    else l

/-- The trailing street-type tokens stripped by `geocode_block_address`
(schema.sql line 338). -/
def suffixTokens : List (List Char) :=
  [['s', 't'], ['s', 't', 'r', 'e', 'e', 't'],
   ['a', 'v', 'e'], ['a', 'v', 'e', 'n', 'u', 'e'],
   ['r', 'd'], ['r', 'o', 'a', 'd'],
   ['d', 'r'], ['d', 'r', 'i', 'v', 'e'],
   ['l', 'n'], ['l', 'a', 'n', 'e'],
   ['c', 't'], ['c', 'o', 'u', 'r', 't'],
   ['b', 'l', 'v', 'd'], ['b', 'o', 'u', 'l', 'e', 'v', 'a', 'r', 'd']]

/-- Working on the reversed string (optional final dot already removed),
try one token: it must appear case-insensitively at the end, preceded by at
least one whitespace character; on success the token and the whole
whitespace run before it are removed. -/
def tryStripToken (r1 : List Char) (tok : List Char) : Option (List Char) :=
  let tr := tok.reverse
  if startsWithCI tr r1 then
    let rest := r1.drop tr.length
    if (rest.takeWhile isSpaceCh).isEmpty then none
    else some (rest.dropWhile isSpaceCh)
  else none

/-- The end-anchored replace stripping one trailing street-type token and an
optional final dot (`regexp_replace` of schema.sql lines 338-341). -/
def stripTypeSuffix (l : List Char) : List Char :=
  let r := l.reverse
  let r1 := match r with
    | '.' :: rest => rest
    | _ => r
  match suffixTokens.findSome? (tryStripToken r1) with
  | some rest => rest.reverse
  | none => l

/-- SQL `trim`: strip space characters from both ends. -/
def sqlTrim (l : List Char) : List Char :=
  ((l.dropWhile (fun c => c == ' ')).reverse.dropWhile (fun c => c == ' ')).reverse

/-- SQL `lower`. -/
def lowerList (l : List Char) : List Char := l.map Char.toLower

/-- The parsing stage of `geocode_block_address` (schema.sql lines 332-344):
the captured block number together with
`normalized_name = lower(trim(street_name))` where `street_name` is the
address with the block prefix and one trailing type token stripped.
`none` when the block-number regex does not match, in which case the
query below can return no row. -/
def parse_block_address (addr : String) : Option (Nat × List Char) :=
  match findBlockNum addr.data with
  | none => none
  | some n =>
    some (n, lowerList (sqlTrim (stripTypeSuffix (stripPrefixBlock addr.data))))

/-- A street-centerline geometry, modelled as a straight segment; the
midpoint below is `ST_LineInterpolatePoint(geometry, 0.5)` on it. -/
structure Segment where
  x1 : ℚ
  y1 : ℚ
  x2 : ℚ
  y2 : ℚ
deriving DecidableEq

/-- Geometric midpoint of a segment
(`ST_LineInterpolatePoint(geometry, 0.5)`). -/
def segMidpoint (g : Segment) : GeoPoint :=
  ⟨(g.x1 + g.x2) / 2, (g.y1 + g.y2) / 2⟩

/-- Row of table `street_centerlines` (schema.sql lines 245-255), restricted
to the columns `geocode_block_address` reads. -/
structure Centerline where
  region : String
  street_name_normalized : String
  from_address : Option Int
  to_address : Option Int
  geometry : Segment
deriving DecidableEq

/-- One row of the result set of `geocode_block_address`. -/
structure GeocodeRow where
  location : GeoPoint
  confidence : ℚ
  resolution : String
deriving DecidableEq

/-- The WHERE clause of the centerline query (schema.sql lines 354-357):
same region, normalized name contains the parsed street, and the
`[from_address, to_address]` interval spans the block number (false on
NULL bounds, per SQL comparison semantics). -/
def centerlineMatches (search_region : String) (blockNum : Nat)
    (normalizedName : List Char) (sc : Centerline) : Bool :=
  sc.region == search_region
  && hasSub normalizedName sc.street_name_normalized.data
  && (match sc.from_address with
      | some f => decide (f ≤ (blockNum : Int))
      | none => false)
  && (match sc.to_address with
      | some t => decide ((blockNum : Int) ≤ t)
      | none => false)

/-- Embedding of `geocode_block_address(block_address, search_region)`
(schema.sql lines 318-360): parse the block number and street name, then
return the midpoint of the first matching centerline (`LIMIT 1` over the
table order) with confidence 0.7 and resolution `block`; no row when the
parse fails or nothing matches. -/
def geocode_block_address (table : List Centerline) (block_address : String)
    (search_region : String) : Option GeocodeRow :=
  match parse_block_address block_address with
  | none => none
  | some (n, name) =>
    (table.find? (centerlineMatches search_region n name)).map
      (fun sc =>
        { location := segMidpoint sc.geometry
          confidence := 7/10
          resolution := "block" })

/-! ### RSS ingestion (`processFeedItems`) and rollup trend (`calcTrend`) -/

/-- A parsed RSS feed item, restricted to the fields `processFeedItems`
uses to build the row key; `content` stands for the remaining descriptive
fields (title, description, url, ...), whose transformation into columns
is a deterministic function of the item abstracted by the `content`
parameter below. -/
structure FeedItem where
  guid : Option String
  link : Option String
  itemId : Option String
  content : String
deriving DecidableEq

/-- Row of table `news_items` as far as the idempotence key is concerned:
the `(source_id, external_id)` key plus the content columns. -/
structure NewsRow where
  source_id : Nat
  external_id : String
  content : String
deriving DecidableEq

/-- JavaScript `a || b` on possibly-missing strings: the empty string is
falsy. -/
def jsOrStr : Option String → Option String → Option String
  | some s, b => if s = "" then b else some s
  | none, b => b

/-- The external id of a feed item: `item.guid || item.link || item.id`
(ingest-rss-supabase.js line 124). -/
def externalIdOf (it : FeedItem) : Option String :=
  jsOrStr it.guid (jsOrStr it.link it.itemId)

/-- The row batch built by `processFeedItems` (lines 123-168): items with a
falsy external id are skipped, the rest become rows for the source. -/
def buildRows (content : FeedItem → String) (sourceId : Nat)
    (items : List FeedItem) : List NewsRow :=
  items.filterMap (fun it =>
    match externalIdOf it with
    | none => none
    | some e => if e = "" then none else some ⟨sourceId, e, content it⟩)

/-- Whether the table already holds a row with the given row's
`(source_id, external_id)` key. -/
def hasKey (table : List NewsRow) (row : NewsRow) : Bool :=
  table.any (fun x => x.source_id == row.source_id && x.external_id == row.external_id)

/-- Supabase `upsert(rows, onConflict source_id external_id,
ignoreDuplicates true)` (lines 175-181): each row is inserted unless a row
with the same key is already present (including rows inserted earlier in
the same batch). -/
def upsertIgnore (table : List NewsRow) (rows : List NewsRow) : List NewsRow :=
  rows.foldl (fun acc row => if hasKey acc row then acc else acc ++ [row]) table

/-- Embedding of `processFeedItems(supabase, source, feedItems)`
(ingest-rss-supabase.js lines 117-192) as a store transformation: build the
row batch and upsert it with duplicates ignored. -/
def processFeedItems (content : FeedItem → String) (table : List NewsRow)
    (sourceId : Nat) (items : List FeedItem) : List NewsRow :=
  upsertIgnore table (buildRows content sourceId items)

/-- JavaScript `Math.round` on an exact rational: round half toward
positive infinity. -/
def jsRound (x : ℚ) : Int := ⌊x + 1/2⌋

/-- Embedding of `calcTrend(current, previous)`
(weekly-rollup-supabase.js lines 402-407). -/
def calcTrend (current previous : Int) : Int :=
  if previous = 0 then (if current > 0 then 100 else 0)
  else jsRound (((current : ℚ) - (previous : ℚ)) / (previous : ℚ) * 100)

/-! ### Spec-side definitions and concrete example inputs -/

/-- Modelled from the spec (§4.5), for comparison with the code: candidates
ordered by match score descending, ties broken by smallest distance, then
smallest time delta, then smallest incident id. -/
def specTieBreakRel (a b : DupCandidate) : Prop :=
  b.match_score < a.match_score ∨
    (a.match_score = b.match_score ∧
      (a.distance_meters < b.distance_meters ∨
        (a.distance_meters = b.distance_meters ∧
          (|a.time_diff_minutes| < |b.time_diff_minutes| ∨
            (|a.time_diff_minutes| = |b.time_diff_minutes| ∧
              a.incident_id ≤ b.incident_id)))))

/-- An example distance function (taxicab metric on the coordinates);
`ST_Distance` is an external function over which the dedup embedding is
parametrised. -/
def distL1 (a b : GeoPoint) : ℚ := |a.x - b.x| + |a.y - b.y|

/-- Example store: one incident (id 0, status `unverified`) with two linked
reports, one from an `audio` source with extraction confidence 0.80 and one
from an `html` source with extraction confidence 0.85 (scenario A of the
spec, after linking). -/
def exStoreA : Store :=
  { sources := [⟨1, "audio"⟩, ⟨2, "html"⟩]
    incidents := [⟨0, "unverified", 1/2, 1, [], none⟩]
    reports := [⟨10, some 0, some 1, some (8/10), "matched"⟩,
                ⟨11, some 0, some 2, some (85/100), "matched"⟩] }

/-- Example store: one incident (id 0, status `unverified`) with no linked
reports at all. -/
def exStoreB : Store :=
  { sources := []
    incidents := [⟨0, "unverified", 1/2, 1, [], none⟩]
    reports := [] }

/-- Example store: one incident (id 0) already `approved` by a human, with
one linked low-confidence report. -/
def exStoreC : Store :=
  { sources := [⟨1, "html"⟩]
    incidents := [⟨0, "approved", 1/2, 1, [], some 5⟩]
    reports := [⟨10, some 0, some 1, some (4/10), "matched"⟩] }

/-- Example incidents table for the duplicate search: two incidents, both
within 300 m and the 3 h window of a report at the origin at time 0 with
type `fire`.  Incident 2 is 120 m away with the same type, incident 1 is
at distance 0 with a different type; both get match score 0.8. -/
def exDupIncidents : List IncidentRow :=
  [⟨2, some "fire", some ⟨120, 0⟩, some 0⟩,
   ⟨1, some "theft", some ⟨0, 0⟩, some 0⟩]

/-- Example centerline for scenario E of the spec: normalized name
`n main`, address range 1-199, geometry a segment from (0,0) to (2,2). -/
def exCenterline : Centerline :=
  ⟨"mchenry_county", "n main", some 1, some 199, ⟨0, 0, 2, 2⟩⟩

/-- Example centerline table holding just `exCenterline`. -/
def exCenterlines : List Centerline := [exCenterline]

/-! ### Helper lemmas -/

theorem find?_map_of_pred_eq {α : Type} (f : α → α) (p : α → Bool) (l : List α)
    (hp : ∀ a, p (f a) = p a) :
    (l.map f).find? p = (l.find? p).map f := by
  induction l with
  | nil => rfl
  | cons a l ih =>
    by_cases h : p a = true
    · simp [List.find?_cons, h, hp a]
    · simp only [Bool.not_eq_true] at h
      simp [List.find?_cons, h, hp a, ih]

theorem applyRecalc_id (conf : ℚ) (nR : Int) (proposed : String) (uuid : Nat)
    (i : Incident) : (applyRecalc conf nR proposed uuid i).id = i.id := by
  unfold applyRecalc
  split <;> rfl

theorem applyReviewUpdate_id (s : String) (now iid : Nat) (i : Incident) :
    (applyReviewUpdate s now iid i).id = i.id := by
  unfold applyReviewUpdate
  split <;> rfl

theorem getIncident_beq (st : Store) (uuid : Nat) (i0 : Incident)
    (h0 : getIncident st uuid = some i0) : (i0.id == uuid) = true := by
  unfold getIncident at h0
  have h := List.find?_some h0
  simpa using h

theorem getIncident_recalculate (st : Store) (uuid : Nat) (i0 : Incident)
    (h0 : getIncident st uuid = some i0) :
    getIncident (recalculate_incident_confidence st uuid) uuid =
      some (applyRecalc
        (newConfidence (avgExtractionConfidence st uuid) (numReports st uuid)
          (numSourceTypes st uuid))
        (numReports st uuid)
        (statusForConfidence (newConfidence (avgExtractionConfidence st uuid)
          (numReports st uuid) (numSourceTypes st uuid)))
        uuid i0) := by
  unfold recalculate_incident_confidence getIncident
  rw [find?_map_of_pred_eq _ _ _ (fun a => by rw [applyRecalc_id])]
  unfold getIncident at h0
  rw [h0]
  rfl

theorem applyRecalc_on_match (conf : ℚ) (nR : Int) (proposed : String) (uuid : Nat)
    (i : Incident) (h : (i.id == uuid) = true) :
    applyRecalc conf nR proposed uuid i =
      { i with
        confidence_score := conf
        report_count := nR
        review_status :=
          if i.review_status == "approved" || i.review_status == "rejected" then
            i.review_status
          else proposed } := by
  simp [applyRecalc, h]

theorem filterMap_pair_map_fst {α β : Type} (g : α → Option β) (l : List α)
    (h : ∀ a ∈ l, (g a).isSome = true) :
    (l.filterMap (fun a => (g a).map (fun b => (a, b)))).map Prod.fst = l := by
  induction l with
  | nil => rfl
  | cons a l ih =>
    obtain ⟨b, hb⟩ := Option.isSome_iff_exists.mp (h a (List.mem_cons_self a l))
    simp [List.filterMap_cons, hb, ih (fun x hx => h x (List.mem_cons_of_mem a hx))]

theorem filterMap_pair_map_snd {α β : Type} (g : α → Option β) (l : List α) :
    (l.filterMap (fun a => (g a).map (fun b => (a, b)))).map Prod.snd = l.filterMap g := by
  induction l with
  | nil => rfl
  | cons a l ih =>
    cases hb : g a <;> simp [List.filterMap_cons, hb, ih]

theorem filterMap_eq_of_map_eq_map_some {α β : Type} (f : α → Option β) (l : List α)
    (bs : List β) (h : l.map f = bs.map some) : l.filterMap f = bs := by
  induction l generalizing bs with
  | nil =>
    cases bs with
    | nil => rfl
    | cons b bs => simp at h
  | cons a l ih =>
    cases bs with
    | nil => simp at h
    | cons b bs =>
      simp only [List.map_cons, List.cons.injEq] at h
      obtain ⟨h1, h2⟩ := h
      simp [List.filterMap_cons, h1, ih bs h2]

theorem linkedJoined_map_fst (st : Store) (uuid : Nat)
    (h : ∀ r ∈ linkedReports st uuid, (joinSource st r).isSome = true) :
    (linkedJoined st uuid).map Prod.fst = linkedReports st uuid :=
  filterMap_pair_map_fst (joinSource st) (linkedReports st uuid) h

theorem linkedJoined_map_snd (st : Store) (uuid : Nat) :
    (linkedJoined st uuid).map Prod.snd
      = (linkedReports st uuid).filterMap (joinSource st) :=
  filterMap_pair_map_snd (joinSource st) (linkedReports st uuid)

theorem numReports_eq_linked (st : Store) (uuid : Nat)
    (h : ∀ r ∈ linkedReports st uuid, (joinSource st r).isSome = true) :
    numReports st uuid = ((linkedReports st uuid).length : Int) := by
  unfold numReports
  rw [← linkedJoined_map_fst st uuid h, List.length_map]

theorem numSourceTypes_eq_linked (st : Store) (uuid : Nat) :
    numSourceTypes st uuid
      = (((((linkedReports st uuid).filterMap (joinSource st)).map
          Source.source_type).dedup.length : Int)) := by
  unfold numSourceTypes
  rw [← linkedJoined_map_snd st uuid, List.map_map]
  rfl

theorem avgEC_eq (st : Store) (uuid : Nat) (ecs : List ℚ)
    (hjoin : ∀ r ∈ linkedReports st uuid, (joinSource st r).isSome = true)
    (hecs : (linkedReports st uuid).map Report.extraction_confidence = ecs.map some) :
    avgExtractionConfidence st uuid = sqlAvg ecs := by
  unfold avgExtractionConfidence
  have h1 : (linkedJoined st uuid).filterMap (fun p => p.1.extraction_confidence)
      = ((linkedJoined st uuid).map Prod.fst).filterMap Report.extraction_confidence := by
    rw [List.filterMap_map]
    rfl
  rw [h1, linkedJoined_map_fst st uuid hjoin,
    filterMap_eq_of_map_eq_map_some _ _ ecs hecs]

theorem recalc_conf_spec (st : Store) (uuid : Nat) (ecs : List ℚ)
    (hjoin : ∀ r ∈ linkedReports st uuid, (joinSource st r).isSome = true)
    (hecs : (linkedReports st uuid).map Report.extraction_confidence = ecs.map some)
    (hne : linkedReports st uuid ≠ []) :
    newConfidence (avgExtractionConfidence st uuid) (numReports st uuid)
      (numSourceTypes st uuid)
      = min (99/100) (ecs.sum / (ecs.length : ℚ)
        + ((min (((linkedReports st uuid).length : Int) - 1) 3 : Int) : ℚ) * (5/100)
        + ((min (((((linkedReports st uuid).filterMap (joinSource st)).map
            Source.source_type).dedup.length : Int) - 1) 2 : Int) : ℚ) * (1/10)) := by
  have hlen : (linkedReports st uuid).length = ecs.length := by
    have h := congrArg List.length hecs
    simpa using h
  have hne2 : ecs ≠ [] := by
    intro hnil
    apply hne
    apply List.length_eq_zero.mp
    rw [hlen, hnil]
    rfl
  unfold newConfidence
  rw [avgEC_eq st uuid ecs hjoin hecs, numReports_eq_linked st uuid hjoin,
    numSourceTypes_eq_linked st uuid]
  unfold sqlAvg
  rw [if_neg (by simp [hne2])]
  rfl

/-! ### Claims C1, C2, C3, C10: the confidence recompute -/

/-- Claim C1 counterexample: in `exStoreA` the incident has two linked
reports whose distinct source types are `audio` and `html`, yet after the
confidence recompute the stored `source_types` is still the empty list: the
recompute does not update `source_types`, so the three derived fields do
not all equal the pure function of the linked-report set. -/
theorem claim_C1_counterexample :
    ((getIncident (recalculate_incident_confidence exStoreA 0) 0).map
        Incident.source_types = some [])
    ∧ ((((linkedReports (recalculate_incident_confidence exStoreA 0) 0).filterMap
          (joinSource (recalculate_incident_confidence exStoreA 0))).map
            Source.source_type).dedup = ["audio", "html"]) := by
  constructor
  · rw [getIncident_recalculate exStoreA 0 ⟨0, "unverified", 1/2, 1, [], none⟩ rfl]
    rw [applyRecalc_on_match _ _ _ _ _ (by rfl)]
    simp
  · rfl

/-- Claim C1 (amended): after the confidence recompute that follows a change
to an incident's linked-report set, `report_count` and `confidence_score`
equal the pure function of §4.6 applied to the current set of linked
reports, but `source_types` is left unchanged by the recompute rather than
being recomputed to the distinct source types of the linked reports. -/
theorem claim_C1_amended (st : Store) (uuid : Nat) (i0 : Incident) (ecs : List ℚ)
    (h0 : getIncident st uuid = some i0)
    (hjoin : ∀ r ∈ linkedReports st uuid, (joinSource st r).isSome = true)
    (hecs : (linkedReports st uuid).map Report.extraction_confidence = ecs.map some)
    (hne : linkedReports st uuid ≠ []) :
    ((getIncident (recalculate_incident_confidence st uuid) uuid).map
        Incident.report_count = some ((linkedReports st uuid).length : Int))
    ∧ ((getIncident (recalculate_incident_confidence st uuid) uuid).map
        Incident.confidence_score
        = some (min (99/100) (ecs.sum / (ecs.length : ℚ)
          + ((min (((linkedReports st uuid).length : Int) - 1) 3 : Int) : ℚ) * (5/100)
          + ((min (((((linkedReports st uuid).filterMap (joinSource st)).map
              Source.source_type).dedup.length : Int) - 1) 2 : Int) : ℚ) * (1/10))))
    ∧ ((getIncident (recalculate_incident_confidence st uuid) uuid).map
        Incident.source_types = some i0.source_types) := by
  rw [getIncident_recalculate st uuid i0 h0,
    applyRecalc_on_match _ _ _ _ _ (getIncident_beq st uuid i0 h0)]
  refine ⟨?_, ?_, ?_⟩
  · simp [numReports_eq_linked st uuid hjoin]
  · simp only [Option.map_some']
    rw [recalc_conf_spec st uuid ecs hjoin hecs hne]
  · simp

/-- Claim C1 amended witness: instantiation at `exStoreA`. -/
theorem claim_C1_amended_witness :
    (getIncident exStoreA 0 = some ⟨0, "unverified", 1/2, 1, [], none⟩)
    ∧ ((linkedReports exStoreA 0).map Report.extraction_confidence
        = [(8:ℚ)/10, 85/100].map some)
    ∧ ((getIncident (recalculate_incident_confidence exStoreA 0) 0).map
        Incident.report_count = some ((linkedReports exStoreA 0).length : Int)) :=
  ⟨rfl, rfl,
    (claim_C1_amended exStoreA 0 ⟨0, "unverified", 1/2, 1, [], none⟩
      [(8:ℚ)/10, 85/100] rfl (by decide) rfl (by simp [linkedReports, exStoreA])).1⟩

/-- Claim C2: for every incident with at least one linked report, each
carrying an extraction confidence and each resolving to a source row, the
recomputed `confidence_score` equals
min(0.99, mean(ec) + 0.05 · min(n_reports − 1, 3) + 0.10 · min(n_kinds − 1, 2)),
where n_kinds is the number of distinct source types over the linked
reports' sources. -/
theorem claim_C2_confidence_formula (st : Store) (uuid : Nat) (i0 : Incident)
    (ecs : List ℚ)
    (h0 : getIncident st uuid = some i0)
    (hjoin : ∀ r ∈ linkedReports st uuid, (joinSource st r).isSome = true)
    (hecs : (linkedReports st uuid).map Report.extraction_confidence = ecs.map some)
    (hne : linkedReports st uuid ≠ []) :
    (getIncident (recalculate_incident_confidence st uuid) uuid).map
        Incident.confidence_score
      = some (min (99/100) (ecs.sum / (ecs.length : ℚ)
        + ((min (((linkedReports st uuid).length : Int) - 1) 3 : Int) : ℚ) * (5/100)
        + ((min (((((linkedReports st uuid).filterMap (joinSource st)).map
            Source.source_type).dedup.length : Int) - 1) 2 : Int) : ℚ) * (1/10))) := by
  rw [getIncident_recalculate st uuid i0 h0,
    applyRecalc_on_match _ _ _ _ _ (getIncident_beq st uuid i0 h0)]
  simp only [Option.map_some']
  rw [recalc_conf_spec st uuid ecs hjoin hecs hne]

/-- Claim C2 witness: instantiation at `exStoreA` (scenario A of the spec);
the formula value is 0.975 = 39/40. -/
theorem claim_C2_witness :
    (getIncident exStoreA 0 = some ⟨0, "unverified", 1/2, 1, [], none⟩)
    ∧ ((linkedReports exStoreA 0).map Report.extraction_confidence
        = [(8:ℚ)/10, 85/100].map some)
    ∧ (linkedReports exStoreA 0 ≠ [])
    ∧ ((getIncident (recalculate_incident_confidence exStoreA 0) 0).map
        Incident.confidence_score
        = some (min (99/100) ([(8:ℚ)/10, 85/100].sum / (([(8:ℚ)/10, 85/100].length : ℚ))
          + ((min (((linkedReports exStoreA 0).length : Int) - 1) 3 : Int) : ℚ) * (5/100)
          + ((min (((((linkedReports exStoreA 0).filterMap (joinSource exStoreA)).map
              Source.source_type).dedup.length : Int) - 1) 2 : Int) : ℚ) * (1/10)))) :=
  ⟨rfl, rfl, by simp [linkedReports, exStoreA],
    claim_C2_confidence_formula exStoreA 0 ⟨0, "unverified", 1/2, 1, [], none⟩
      [(8:ℚ)/10, 85/100] rfl (by decide) rfl (by simp [linkedReports, exStoreA])⟩

/-- Claim C3: the confidence recompute keeps `review_status` unchanged when
it is `approved` or `rejected`, and otherwise sets it to `auto_published`
when the new confidence is at least 0.9, `unverified` when it is at least
0.6 and below 0.9, and `needs_review` when it is below 0.6. -/
theorem claim_C3_review_status (st : Store) (uuid : Nat) (i0 : Incident)
    (h0 : getIncident st uuid = some i0) :
    (getIncident (recalculate_incident_confidence st uuid) uuid).map
        Incident.review_status
      = (getIncident (recalculate_incident_confidence st uuid) uuid).map (fun i =>
          if i0.review_status = "approved" ∨ i0.review_status = "rejected" then
            i0.review_status
          else if 9/10 ≤ i.confidence_score then "auto_published"
          else if 6/10 ≤ i.confidence_score then "unverified"
          else "needs_review") := by
  rw [getIncident_recalculate st uuid i0 h0,
    applyRecalc_on_match _ _ _ _ _ (getIncident_beq st uuid i0 h0)]
  simp only [Option.map_some']
  congr 1
  by_cases happ : i0.review_status = "approved" ∨ i0.review_status = "rejected"
  · have hb : (i0.review_status == "approved" || i0.review_status == "rejected") = true := by
      rcases happ with h | h <;> simp [h]
    simp [hb, happ]
  · obtain ⟨h1, h2⟩ := not_or.mp happ
    have hb : (i0.review_status == "approved" || i0.review_status == "rejected") = false := by
      simp [h1, h2]
    simp [hb, happ, statusForConfidence]

/-- Claim C3 witness: a pending incident takes the proposed status, an
`approved` incident keeps its status through the recompute. -/
theorem claim_C3_witness :
    (getIncident exStoreA 0 = some ⟨0, "unverified", 1/2, 1, [], none⟩)
    ∧ ((getIncident (recalculate_incident_confidence exStoreA 0) 0).map
        Incident.review_status
      = (getIncident (recalculate_incident_confidence exStoreA 0) 0).map (fun i =>
          if ("unverified" : String) = "approved" ∨ ("unverified" : String) = "rejected" then
            "unverified"
          else if 9/10 ≤ i.confidence_score then "auto_published"
          else if 6/10 ≤ i.confidence_score then "unverified"
          else "needs_review"))
    ∧ (getIncident exStoreC 0 = some ⟨0, "approved", 1/2, 1, [], some 5⟩)
    ∧ ((getIncident (recalculate_incident_confidence exStoreC 0) 0).map
        Incident.review_status
      = (getIncident (recalculate_incident_confidence exStoreC 0) 0).map (fun i =>
          if ("approved" : String) = "approved" ∨ ("approved" : String) = "rejected" then
            "approved"
          else if 9/10 ≤ i.confidence_score then "auto_published"
          else if 6/10 ≤ i.confidence_score then "unverified"
          else "needs_review")) :=
  ⟨rfl,
    claim_C3_review_status exStoreA 0 ⟨0, "unverified", 1/2, 1, [], none⟩ rfl,
    rfl,
    claim_C3_review_status exStoreC 0 ⟨0, "approved", 1/2, 1, [], some 5⟩ rfl⟩

/-- Claim C10: for an incident with zero linked reports, the recompute sets
`confidence_score` to 0.35 (the 0.5 fallback plus the negative bonuses
0.05·(0−1) and 0.10·(0−1)) and, unless the current review status is
`approved` or `rejected`, sets `review_status` to `needs_review`. -/
theorem claim_C10_zero_reports (st : Store) (uuid : Nat) (i0 : Incident)
    (h0 : getIncident st uuid = some i0)
    (hnone : linkedReports st uuid = []) :
    ((getIncident (recalculate_incident_confidence st uuid) uuid).map
        Incident.confidence_score = some (35/100))
    ∧ ((getIncident (recalculate_incident_confidence st uuid) uuid).map
        Incident.review_status
      = some (if i0.review_status = "approved" ∨ i0.review_status = "rejected" then
          i0.review_status else "needs_review")) := by
  have hconf : newConfidence (avgExtractionConfidence st uuid) (numReports st uuid)
      (numSourceTypes st uuid) = 35/100 := by
    unfold avgExtractionConfidence numReports numSourceTypes linkedJoined
    rw [hnone]
    simp only [List.filterMap_nil, List.map_nil, List.length_nil]
    unfold sqlAvg newConfidence
    norm_num [List.dedup]
  rw [getIncident_recalculate st uuid i0 h0,
    applyRecalc_on_match _ _ _ _ _ (getIncident_beq st uuid i0 h0), hconf]
  have hstat : statusForConfidence (35/100) = "needs_review" := by
    unfold statusForConfidence
    rw [if_neg (by norm_num), if_neg (by norm_num)]
  constructor
  · simp
  · simp only [Option.map_some']
    congr 1
    by_cases happ : i0.review_status = "approved" ∨ i0.review_status = "rejected"
    · have hb : (i0.review_status == "approved" || i0.review_status == "rejected") = true := by
        rcases happ with h | h <;> simp [h]
      simp [hb, happ]
    · obtain ⟨h1, h2⟩ := not_or.mp happ
      have hb : (i0.review_status == "approved" || i0.review_status == "rejected") = false := by
        simp [h1, h2]
      simp [hb, happ, hstat]

/-- Claim C10 witness: instantiation at `exStoreB`, an incident with no
linked reports and status `unverified`. -/
theorem claim_C10_witness :
    (getIncident exStoreB 0 = some ⟨0, "unverified", 1/2, 1, [], none⟩)
    ∧ (linkedReports exStoreB 0 = [])
    ∧ ((getIncident (recalculate_incident_confidence exStoreB 0) 0).map
        Incident.confidence_score = some (35/100))
    ∧ ((getIncident (recalculate_incident_confidence exStoreB 0) 0).map
        Incident.review_status = some (if ("unverified" : String) = "approved"
          ∨ ("unverified" : String) = "rejected" then "unverified" else "needs_review")) :=
  ⟨rfl, rfl,
    (claim_C10_zero_reports exStoreB 0 ⟨0, "unverified", 1/2, 1, [], none⟩ rfl rfl).1,
    (claim_C10_zero_reports exStoreB 0 ⟨0, "unverified", 1/2, 1, [], none⟩ rfl rfl).2⟩

/-! ### Claim C7: the review-queue POST handler -/

/-- Claim C7: a reject action sets the incident's review status to
`rejected` with `reviewed_at` set and cascades `dedup_status = rejected` to
every report linked to the incident; an approve action sets the status to
`approved` without touching the reports table. -/
theorem claim_C7_post_review (st : Store) (iid : Nat) (now : Nat) (i0 : Incident)
    (h0 : getIncident st iid = some i0) :
    ((getIncident (postReviewQueue st iid "reject" now) iid).map
        (fun i => (i.review_status, i.reviewed_at)) = some ("rejected", some now))
    ∧ (∀ r ∈ (postReviewQueue st iid "reject" now).reports,
        r.incident_id = some iid → r.dedup_status = "rejected")
    ∧ ((getIncident (postReviewQueue st iid "approve" now) iid).map
        (fun i => (i.review_status, i.reviewed_at)) = some ("approved", some now))
    ∧ ((postReviewQueue st iid "approve" now).reports = st.reports) := by
  have hbeq := getIncident_beq st iid i0 h0
  have hred : postReviewQueue st iid "reject" now =
      { st with incidents := st.incidents.map (applyReviewUpdate "rejected" now iid)
                reports := st.reports.map (applyRejectCascade iid) } := by
    rfl
  have happr : postReviewQueue st iid "approve" now =
      { st with incidents := st.incidents.map (applyReviewUpdate "approved" now iid) } := by
    rfl
  refine ⟨?_, ?_, ?_, ?_⟩
  · rw [hred]
    unfold getIncident at h0 ⊢
    rw [find?_map_of_pred_eq _ _ _ (fun a => by rw [applyReviewUpdate_id]), h0]
    simp [applyReviewUpdate, hbeq]
  · rw [hred]
    intro r hr hlink
    simp only [List.mem_map] at hr
    obtain ⟨r0, hr0, hr0eq⟩ := hr
    subst hr0eq
    by_cases hc : (r0.incident_id == some iid) = true
    · simp [applyRejectCascade, hc]
    · simp only [Bool.not_eq_true] at hc
      simp only [applyRejectCascade, hc, Bool.false_eq_true, if_false] at hlink
      rw [hlink] at hc
      simp at hc
  · rw [happr]
    unfold getIncident at h0 ⊢
    rw [find?_map_of_pred_eq _ _ _ (fun a => by rw [applyReviewUpdate_id]), h0]
    simp [applyReviewUpdate, hbeq]
  · rw [happr]

/-- Claim C7 witness: instantiation at `exStoreA`, whose two reports are
both linked to incident 0. -/
theorem claim_C7_witness :
    (getIncident exStoreA 0 = some ⟨0, "unverified", 1/2, 1, [], none⟩)
    ∧ ((getIncident (postReviewQueue exStoreA 0 "reject" 7) 0).map
        (fun i => (i.review_status, i.reviewed_at)) = some ("rejected", some 7))
    ∧ (((postReviewQueue exStoreA 0 "reject" 7).reports.all
        (fun r => !(r.incident_id == some 0) || (r.dedup_status == "rejected"))) = true)
    ∧ ((postReviewQueue exStoreA 0 "approve" 7).reports = exStoreA.reports) :=
  ⟨rfl,
    (claim_C7_post_review exStoreA 0 7 ⟨0, "unverified", 1/2, 1, [], none⟩ rfl).1,
    by
      have h := (claim_C7_post_review exStoreA 0 7 ⟨0, "unverified", 1/2, 1, [], none⟩
        rfl).2.1
      rw [List.all_eq_true]
      intro r hr
      by_cases hc : r.incident_id = some 0
      · simp [h r hr hc]
      · simp [hc],
    (claim_C7_post_review exStoreA 0 7 ⟨0, "unverified", 1/2, 1, [], none⟩ rfl).2.2.2⟩

/-! ### Claim C8: idempotent ingestion -/

theorem hasKey_append (t : List NewsRow) (r x : NewsRow) (h : hasKey t r = true) :
    hasKey (t ++ [x]) r = true := by
  unfold hasKey at h ⊢
  rw [List.any_append]
  simp [h]

theorem hasKey_upsertIgnore (rows : List NewsRow) : ∀ (t : List NewsRow) (r : NewsRow),
    hasKey t r = true → hasKey (upsertIgnore t rows) r = true := by
  induction rows with
  | nil => intro t r h; exact h
  | cons a rows ih =>
    intro t r h
    simp only [upsertIgnore, List.foldl_cons]
    by_cases hc : hasKey t a = true
    · rw [if_pos hc]
      exact ih t r h
    · rw [if_neg hc]
      exact ih (t ++ [a]) r (hasKey_append t r a h)

theorem hasKey_self_upsertIgnore (rows : List NewsRow) : ∀ (t : List NewsRow) (r : NewsRow),
    r ∈ rows → hasKey (upsertIgnore t rows) r = true := by
  induction rows with
  | nil => intro t r hr; cases hr
  | cons a rows ih =>
    intro t r hr
    simp only [upsertIgnore, List.foldl_cons]
    rcases List.mem_cons.mp hr with heq | hmem
    · subst heq
      by_cases hc : hasKey t r = true
      · rw [if_pos hc]
        exact hasKey_upsertIgnore rows t r hc
      · rw [if_neg hc]
        refine hasKey_upsertIgnore rows (t ++ [r]) r ?_
        unfold hasKey
        rw [List.any_append]
        simp
    · by_cases hc : hasKey t a = true
      · rw [if_pos hc]
        exact ih t r hmem
      · rw [if_neg hc]
        exact ih (t ++ [a]) r hmem

theorem upsertIgnore_of_all_keys (rows : List NewsRow) : ∀ (t : List NewsRow),
    (∀ r ∈ rows, hasKey t r = true) → upsertIgnore t rows = t := by
  induction rows with
  | nil => intro t _; rfl
  | cons a rows ih =>
    intro t h
    simp only [upsertIgnore, List.foldl_cons]
    rw [if_pos (h a (List.mem_cons_self a rows))]
    exact ih t (fun r hr => h r (List.mem_cons_of_mem a hr))

/-- Claim C8: ingestion is idempotent per (source_id, external_id): running
`processFeedItems` a second time with the same feed items inserts no second
row and leaves the stored table identical to the state after the first
run. -/
theorem claim_C8_idempotent (content : FeedItem → String) (table : List NewsRow)
    (sourceId : Nat) (items : List FeedItem) :
    processFeedItems content (processFeedItems content table sourceId items) sourceId items
      = processFeedItems content table sourceId items := by
  unfold processFeedItems
  exact upsertIgnore_of_all_keys (buildRows content sourceId items) _
    (fun r hr => hasKey_self_upsertIgnore (buildRows content sourceId items) table r hr)

/-! ### Claim C9: rollup trend -/

/-- Claim C9: the rollup trend equals round(100·(current − previous)/previous)
when previous > 0 (with JavaScript Math.round semantics), equals 100 when
previous = 0 and current > 0, and equals 0 when both are 0. -/
theorem claim_C9_trend (current previous : Int) :
    (0 < previous → calcTrend current previous
        = jsRound (100 * ((current : ℚ) - (previous : ℚ)) / (previous : ℚ)))
    ∧ (previous = 0 → 0 < current → calcTrend current previous = 100)
    ∧ (previous = 0 → current = 0 → calcTrend current previous = 0) := by
  refine ⟨?_, ?_, ?_⟩
  · intro hp
    unfold calcTrend
    rw [if_neg (by omega)]
    congr 1
    ring
  · intro hp hc
    unfold calcTrend
    rw [if_pos hp, if_pos hc]
  · intro hp hc
    unfold calcTrend
    rw [if_pos hp, if_neg (by omega)]

/-- Claim C9 witness: scenario F of the spec, current 10 and previous 8
give a trend of 25 percent. -/
theorem claim_C9_witness :
    (0 < (8 : Int))
    ∧ (calcTrend 10 8 = jsRound (100 * ((10 : ℚ) - (8 : ℚ)) / (8 : ℚ)))
    ∧ (jsRound (100 * ((10 : ℚ) - (8 : ℚ)) / (8 : ℚ)) = 25) :=
  ⟨by norm_num, (claim_C9_trend 10 8).1 (by norm_num), by
    unfold jsRound
    norm_num⟩

/-! ### Claims C4 and C5: the duplicate-candidate search -/

theorem dupCandidate_score_eq (i : IncidentRow) (loc : GeoPoint) (t : Int)
    (dist : GeoPoint → GeoPoint → ℚ) (report_location : GeoPoint)
    (report_time : Int) (report_type : Option String) :
    ({ incident_id := i.id
       distance_meters := dist loc report_location
       time_diff_minutes := ((report_time - t : Int) : ℚ) / 60
       match_score := (1 - dist loc report_location / (((300 : Int)) : ℚ)) * (5/10)
         + (1 - |((report_time - t : Int) : ℚ)| / (((3 : Int) : ℚ) * 3600)) * (3/10)
         + (if typeEqSql i.incident_type report_type then (2/10) else 0) } : DupCandidate)
    = { incident_id := i.id
        distance_meters := dist loc report_location
        time_diff_minutes := ((report_time - t : Int) : ℚ) / 60
        match_score := (5/10) * (1 - dist loc report_location / 300)
          + (3/10) * (1 - |((report_time - t : Int) : ℚ) / 60| / 180)
          + (2/10) * (if typeEqSql i.incident_type report_type then 1 else 0) } := by
  have habs : |((report_time - t : Int) : ℚ) / 60| = |((report_time - t : Int) : ℚ)| / 60 := by
    rw [abs_div]
    norm_num
  congr 1
  rw [habs]
  cases typeEqSql i.incident_type report_type <;> push_cast <;> simp <;> ring

/-- Claim C4: with the default 300 m radius and 3 h window, the candidate
search returns exactly the incidents with a location within 300 m of the
report and an `occurred_at` within 3 hours of the report's, and each
candidate carries the score
0.5·(1 − distance/300) + 0.3·(1 − |Δt_minutes|/180) + 0.2·[type equal],
with all three weighted terms always present. -/
theorem claim_C4_candidate_search (dist : GeoPoint → GeoPoint → ℚ)
    (incidents : List IncidentRow) (report_location : GeoPoint)
    (report_time : Int) (report_type : Option String) (c : DupCandidate) :
    c ∈ find_potential_duplicates dist incidents report_location report_time
        report_type 300 3
      ↔ ∃ i ∈ incidents, ∃ loc, ∃ t, i.location = some loc ∧ i.occurred_at = some t
          ∧ dist loc report_location ≤ 300 ∧ |report_time - t| ≤ 3 * 3600
          ∧ c = { incident_id := i.id
                  distance_meters := dist loc report_location
                  time_diff_minutes := ((report_time - t : Int) : ℚ) / 60
                  match_score := (5/10) * (1 - dist loc report_location / 300)
                    + (3/10) * (1 - |((report_time - t : Int) : ℚ) / 60| / 180)
                    + (2/10) * (if typeEqSql i.incident_type report_type then 1 else 0) } := by
  unfold find_potential_duplicates
  rw [List.Perm.mem_iff (List.perm_insertionSort _ _), List.mem_filterMap]
  have h300 : (((300 : Int)) : ℚ) = 300 := by norm_num
  constructor
  · rintro ⟨i, hi, hfi⟩
    refine ⟨i, hi, ?_⟩
    rcases hloc : i.location with _ | loc
    · rw [hloc] at hfi
      simp at hfi
    rcases hocc : i.occurred_at with _ | t
    · rw [hloc, hocc] at hfi
      simp at hfi
    rw [hloc, hocc] at hfi
    simp only [] at hfi
    by_cases hcond : dist loc report_location ≤ (((300 : Int)) : ℚ)
        ∧ report_time - 3 * 3600 ≤ t ∧ t ≤ report_time + 3 * 3600
    · rw [if_pos hcond] at hfi
      refine ⟨loc, t, rfl, rfl, by rw [← h300]; exact hcond.1, ?_, ?_⟩
      · rw [abs_le]
        omega
      · rw [← Option.some_inj, ← hfi, dupCandidate_score_eq]
    · rw [if_neg hcond] at hfi
      simp at hfi
  · rintro ⟨i, hi, loc, t, hloc, hocc, hd, ht, hc⟩
    refine ⟨i, hi, ?_⟩
    rw [hloc, hocc]
    simp only []
    rw [abs_le] at ht
    rw [if_pos ⟨by rw [h300]; exact hd, by omega, by omega⟩, dupCandidate_score_eq, hc]

/-- Claim C5 (amended): the candidate list is ordered by match score
descending only; the function applies no distance, time-delta or id
tie-break, so the relative order of equal-score candidates is left to the
(unspecified) scan order of the table. -/
theorem claim_C5_amended (dist : GeoPoint → GeoPoint → ℚ) (incidents : List IncidentRow)
    (report_location : GeoPoint) (report_time : Int) (report_type : Option String)
    (distance_meters time_window_hours : Int) :
    List.Pairwise (fun a b : DupCandidate => b.match_score ≤ a.match_score)
      (find_potential_duplicates dist incidents report_location report_time
        report_type distance_meters time_window_hours) := by
  unfold find_potential_duplicates
  exact List.sorted_insertionSort scoreDesc _

/-- Claim C5 counterexample: on `exDupIncidents` both candidates carry match
score 0.8, yet the result lists the 120 m-distant incident 2 before the
0 m-distant incident 1, so the claimed deterministic tie-break (smallest
distance first among equal scores) does not hold. -/
theorem claim_C5_counterexample :
    ((find_potential_duplicates distL1 exDupIncidents ⟨0, 0⟩ 0 (some "fire") 300 3).map
        DupCandidate.incident_id = [2, 1])
    ∧ ((find_potential_duplicates distL1 exDupIncidents ⟨0, 0⟩ 0 (some "fire") 300 3).map
        DupCandidate.match_score = [4/5, 4/5])
    ∧ ((find_potential_duplicates distL1 exDupIncidents ⟨0, 0⟩ 0 (some "fire") 300 3).map
        DupCandidate.distance_meters = [120, 0])
    ∧ ¬ List.Pairwise specTieBreakRel
        (find_potential_duplicates distL1 exDupIncidents ⟨0, 0⟩ 0 (some "fire") 300 3) := by
  have hout : find_potential_duplicates distL1 exDupIncidents ⟨0, 0⟩ 0 (some "fire") 300 3
      = [⟨2, 120, 0, 4/5⟩, ⟨1, 0, 0, 4/5⟩] := by
    unfold find_potential_duplicates exDupIncidents
    norm_num [List.filterMap_cons, distL1, typeEqSql, List.insertionSort,
      List.orderedInsert, scoreDesc]
    have hsf : ¬ ("theft" = "fire") := by decide
    simp only [if_neg hsf]
    norm_num
  rw [hout]
  refine ⟨rfl, by norm_num, rfl, ?_⟩
  intro hpair
  rcases List.pairwise_cons.mp hpair with ⟨hrel, _⟩
  have h := hrel ⟨1, 0, 0, 4/5⟩ (by simp)
  unfold specTieBreakRel at h
  norm_num at h

/-! ### Claim C6: the block geocoder -/

/-- Claim C6: when the block-address parse succeeds (pattern
`<number> block (of) <street>` with trailing type token stripped) and some
centerline of the region whose normalized name contains the parsed street
spans the block number, the geocoder returns the geometric midpoint of the
first such centerline with confidence 0.70 and resolution `block`. -/
theorem claim_C6_block_geocode (table : List Centerline) (addr : String)
    (region : String) (n : Nat) (name : List Char) (sc : Centerline)
    (hp : parse_block_address addr = some (n, name))
    (hf : table.find? (centerlineMatches region n name) = some sc) :
    geocode_block_address table addr region
      = some { location := segMidpoint sc.geometry
               confidence := 7/10
               resolution := "block" } := by
  simp [geocode_block_address, hp, hf]

/-- Claim C6 witness: scenario E of the spec, address
`100 block of N Main St` against a centerline `n main` with range 1-199
and geometry from (0,0) to (2,2); the result is the midpoint (1,1) with
confidence 0.70 and resolution `block`. -/
theorem claim_C6_witness :
    (parse_block_address "100 block of N Main St"
      = some (100, ['n', ' ', 'm', 'a', 'i', 'n']))
    ∧ (exCenterlines.find?
        (centerlineMatches "mchenry_county" 100 ['n', ' ', 'm', 'a', 'i', 'n'])
      = some exCenterline)
    ∧ (geocode_block_address exCenterlines "100 block of N Main St" "mchenry_county"
      = some { location := ⟨1, 1⟩, confidence := 7/10, resolution := "block" }) := by
  refine ⟨by decide, rfl, ?_⟩
  have h := claim_C6_block_geocode exCenterlines "100 block of N Main St" "mchenry_county"
    100 ['n', ' ', 'm', 'a', 'i', 'n'] exCenterline (by decide) rfl
  rw [h]
  norm_num [exCenterline, segMidpoint]

end Ranger
